import Mathlib

/-!
Shallow embedding of `src/task1.py`, an in-memory contact manager
(address book with validated phone numbers and birthdays, plus a report of
upcoming birthdays), together with theorems settling the specification
claims about it.

Modelling conventions:
* Python strings are Lean `String`s; `str.isdigit` and the digit classes of
  `strptime` are modelled over ASCII decimal digits `'0'..'9'` (the inputs
  the program is concerned with).
* Python `datetime.date` values are triples year/month/day in the proleptic
  Gregorian calendar; `date.toordinal` is `Date.toOrdinal`, `date.weekday`
  is `Date.weekday` (Monday = 0 .. Sunday = 6), `date.replace(year=y)` is
  `Date.replaceYear` (it re-validates and raises `ValueError` on an invalid
  result, e.g. Feb 29 in a non-leap year).  Python's `MAXYEAR` (9999) upper
  bound is not modelled; no claim concerns it.
* Functions that read the clock (`datetime.today()`) take `today` as an
  explicit parameter.
* Python exceptions are modelled with `Except PyErr`; the `input_error`
  decorator catches exactly `ValueError`, `IndexError` and `KeyError`.
  The spec's `ValidationError` / `NotFoundError` kinds are `ValueError`s
  distinguished by their message, as in the source.
* `dict` (via `UserDict`) is an association list with unique keys kept in
  insertion order; overwriting a key keeps its position, as Python does.
-/

namespace Task1

/-- Python exception kinds relevant to this program (the only kinds any of
its operations raise, and the kinds `input_error` catches). -/
inductive PyErr where
  | valueError (msg : String)
  | indexError
  | keyError
deriving DecidableEq, Repr

/-! ## Calendar primitives (datetime.date semantics) -/

/-- Gregorian leap-year rule, as `calendar.isleap` / `datetime`. -/
def isLeapYear (y : Nat) : Bool :=
  y % 4 == 0 && (y % 100 != 0 || y % 400 == 0)

/-- Days in a month of a given year. -/
def daysInMonth (y m : Nat) : Nat :=
  if m = 2 then (if isLeapYear y then 29 else 28)
  else if m = 4 ∨ m = 6 ∨ m = 9 ∨ m = 11 then 30
  else 31

/-- A calendar date, year/month/day. -/
structure Date where
  year : Nat
  month : Nat
  day : Nat
deriving DecidableEq, Repr

/-- Validity as required by the `datetime.date` constructor (without the
year-9999 upper bound, see the header). -/
def Date.valid (d : Date) : Bool :=
  1 ≤ d.year && 1 ≤ d.month && d.month ≤ 12 && 1 ≤ d.day &&
    d.day ≤ daysInMonth d.year d.month

/-- Python compares `date` objects by (year, month, day) lexicographically. -/
def Date.lt (a b : Date) : Bool :=
  decide (a.year < b.year ∨
    (a.year = b.year ∧
      (a.month < b.month ∨ (a.month = b.month ∧ a.day < b.day))))

/-- Non-strict date comparison, lexicographic on (year, month, day). -/
def Date.le (a b : Date) : Bool :=
  decide (a.year < b.year ∨
    (a.year = b.year ∧
      (a.month < b.month ∨ (a.month = b.month ∧ a.day ≤ b.day))))

/-- Days in the years before year `y` (year 1 is the first year): the
formula used by CPython's `datetime._days_before_year`. -/
def daysBeforeYear (y : Nat) : Nat :=
  365 * (y - 1) + (y - 1) / 4 - (y - 1) / 100 + (y - 1) / 400

/-- Days in year `y` strictly before month `m`. -/
def daysBeforeMonth (y m : Nat) : Nat :=
  ∑ k ∈ Finset.range (m - 1), daysInMonth y (k + 1)

/-- The proleptic-Gregorian ordinal of a date (`date.toordinal`):
0001-01-01 is ordinal 1. -/
def Date.toOrdinal (d : Date) : Nat :=
  daysBeforeYear d.year + daysBeforeMonth d.year d.month + d.day

/-- The weekday of a date (`date.weekday`): Monday = 0 .. Sunday = 6.
0001-01-01 (ordinal 1) is a Monday. -/
def Date.weekday (d : Date) : Nat :=
  (d.toOrdinal + 6) % 7

/-- The day after a valid date. -/
def Date.next (d : Date) : Date :=
  if d.day < daysInMonth d.year d.month then ⟨d.year, d.month, d.day + 1⟩
  else if d.month < 12 then ⟨d.year, d.month + 1, 1⟩
  else ⟨d.year + 1, 1, 1⟩

/-- `d + timedelta(days=n)` for a valid date `d`. -/
def Date.addDays (d : Date) (n : Nat) : Date :=
  Date.next^[n] d

/-- `d.replace(year=y)`: keeps month and day, re-validates, raising
`ValueError` when the result is not a real date (e.g. Feb 29 of a
non-leap year). -/
def Date.replaceYear (d : Date) (y : Nat) : Except PyErr Date :=
  if (Date.mk y d.month d.day).valid then .ok ⟨y, d.month, d.day⟩
  else .error (.valueError "day is out of range for month")

/-! ## Validated field types -/

/-- `str.isdigit`: non-empty and made of decimal digits (ASCII fragment,
see the header). -/
def pyIsdigit (s : String) : Bool :=
  s.length != 0 && s.data.all Char.isDigit

/-- `Phone.validate_phone`: `phone.isdigit() and len(phone) == 10`. -/
def validate_phone (phone : String) : Bool :=
  pyIsdigit phone && phone.length == 10

/-- A `Phone` field object; stores the raw string, like `Field.value`. -/
structure Phone where
  value : String
deriving DecidableEq, Repr

/-- The `Phone` constructor: validates, raising `ValueError` on failure. -/
def mkPhone (value : String) : Except PyErr Phone :=
  if validate_phone value then .ok ⟨value⟩
  else .error (.valueError "Phone number must contain exactly 10 digits.")

/-- `s.split(".")` on the character list: splits at every dot, keeping
empty fields, as Python's `str.split` with an explicit separator. -/
def splitDots : List Char → List (List Char)
  | [] => [[]]
  | c :: rest =>
    if c = '.' then [] :: splitDots rest
    else
      match splitDots rest with
      | [] => [[c]]
      | g :: gs => (c :: g) :: gs

/-- Non-empty and all decimal digits, `str.isdigit` on a field. -/
def fieldIsdigit (cs : List Char) : Bool :=
  !cs.isEmpty && cs.all Char.isDigit

/-- Numeric value of an all-digit field (`int(field)`). -/
def digitsToNat (cs : List Char) : Nat :=
  cs.foldl (fun n c => 10 * n + (c.toNat - 48)) 0

/-- The day field of `strptime`'s `"%d"`: CPython matches the regex
`3[01]|[12]\d|0[1-9]|[1-9]`, i.e. one or two decimal digits denoting
1..31 (a lone zero padding at most). -/
def dayFieldOk (cs : List Char) : Bool :=
  fieldIsdigit cs && 1 ≤ cs.length && cs.length ≤ 2 &&
    1 ≤ digitsToNat cs && digitsToNat cs ≤ 31

/-- The month field of `strptime`'s `"%m"`: regex `1[0-2]|0[1-9]|[1-9]`,
i.e. one or two decimal digits denoting 1..12. -/
def monthFieldOk (cs : List Char) : Bool :=
  fieldIsdigit cs && 1 ≤ cs.length && cs.length ≤ 2 &&
    1 ≤ digitsToNat cs && digitsToNat cs ≤ 12

/-- The year field of `strptime`'s `"%Y"`: regex `\d\d\d\d`, exactly four
decimal digits. -/
def yearFieldOk (cs : List Char) : Bool :=
  fieldIsdigit cs && cs.length == 4

/-- `datetime.strptime(s, "%d.%m.%Y")` followed by `.date()`: parses
day, month and year fields separated by literal dots, consuming the whole
string, then builds the `date` (which rejects year 0 and days past the end
of the month).  Returns `none` exactly when Python raises `ValueError`. -/
def strptimeDMY (s : String) : Option Date :=
  match splitDots s.data with
  | [ds, ms, ys] =>
    if dayFieldOk ds && monthFieldOk ms && yearFieldOk ys &&
        (1 ≤ digitsToNat ys &&
          digitsToNat ds ≤ daysInMonth (digitsToNat ys) (digitsToNat ms)) then
      some ⟨digitsToNat ys, digitsToNat ms, digitsToNat ds⟩
    else none
  | _ => none

/-- `Birthday.validate_birthday`: true iff `strptime` succeeds. -/
def validate_birthday (birthday : String) : Bool :=
  (strptimeDMY birthday).isSome

/-- A `Birthday` field object; stores the raw string, like the source
(`super().__init__(value)` keeps the string, not the parsed date). -/
structure Birthday where
  value : String
deriving DecidableEq, Repr

/-- The `Birthday` constructor: validates, raising `ValueError` on
failure. -/
def mkBirthday (value : String) : Except PyErr Birthday :=
  if validate_birthday value then .ok ⟨value⟩
  else .error (.valueError "Birthday must be in DD.MM.YYYY format.")

/-! ## Record -/

/-- A `Record`: name (the `Name` wrapper adds nothing and is flattened to
the raw string), ordered phone list, optional birthday. -/
structure Record where
  name : String
  phones : List Phone
  birthday : Option Birthday
deriving DecidableEq, Repr

/-- `Record(name)`. -/
def Record.init (name : String) : Record :=
  ⟨name, [], none⟩

/-- `Record.find_phone`: first phone whose value equals `phone`, else
`None`; no side effects. -/
def Record.find_phone (r : Record) (phone : String) : Option Phone :=
  r.phones.find? (fun p => p.value == phone)

/-- `Record.add_phone`: validates and appends (exceptions propagate). -/
def Record.add_phone (r : Record) (phone : String) : Except PyErr Record :=
  match mkPhone phone with
  | .ok p => .ok { r with phones := r.phones ++ [p] }
  | .error e => .error e

/-- Replace the first list entry whose value is `old` (the source finds the
first matching object with `find_phone` and assigns at `list.index` of that
object, which is that same first matching position). -/
def replaceFirstPhone : List Phone → String → Phone → List Phone
  | [], _, _ => []
  | q :: rest, old, p =>
    if q.value == old then p :: rest else q :: replaceFirstPhone rest old p

/-- `Record.edit_phone`: `ValueError "Old phone number not found."` when
`old_phone` is absent; otherwise the `Phone` constructor runs (raising on
an invalid `new_phone`, before any mutation) and the first match is
replaced in place. -/
def Record.edit_phone (r : Record) (old_phone new_phone : String) :
    Except PyErr Record :=
  match r.find_phone old_phone with
  | some _ =>
    match mkPhone new_phone with
    | .ok p => .ok { r with phones := replaceFirstPhone r.phones old_phone p }
    | .error e => .error e
  | none => .error (.valueError "Old phone number not found.")

/-- `Record.add_birthday`: validates and overwrites the single slot. -/
def Record.add_birthday (r : Record) (birthday : String) :
    Except PyErr Record :=
  match mkBirthday birthday with
  | .ok b => .ok { r with birthday := some b }
  | .error e => .error e

/-- `Record.days_to_birthday` with `today` explicit: `None` without a
birthday; otherwise re-parses the stored string, substitutes this year
(raising for Feb 29 in a non-leap year), rolls to next year when the
this-year date already passed, and returns the signed day difference. -/
def Record.days_to_birthday (r : Record) (today : Date) :
    Except PyErr (Option Int) :=
  match r.birthday with
  | none => .ok none
  | some b =>
    match strptimeDMY b.value with
    | none => .error (.valueError "strptime failed")
    | some bd =>
      match bd.replaceYear today.year with
      | .error e => .error e
      | .ok bty =>
        if Date.lt bty today then
          match bty.replaceYear (today.year + 1) with
          | .error e => .error e
          | .ok bny => .ok (some ((bny.toOrdinal : Int) - today.toOrdinal))
        else .ok (some ((bty.toOrdinal : Int) - today.toOrdinal))

/-- `Record.__str__`. -/
def Record.render (r : Record) : String :=
  let phones_str := String.intercalate ", " (r.phones.map (·.value))
  let birthday_str :=
    match r.birthday with
    | some b => ", Birthday: " ++ b.value
    | none => ""
  r.name ++ ": " ++ (if phones_str ≠ "" then phones_str else "No phones") ++
    birthday_str

/-! ## AddressBook (a `UserDict`: insertion-ordered, unique keys) -/

/-- Insert or overwrite a key; an existing key keeps its position, a new
key goes to the end (Python `dict` semantics). -/
def dictSet (l : List (String × Record)) (k : String) (v : Record) :
    List (String × Record) :=
  match l with
  | [] => [(k, v)]
  | (k', v') :: rest =>
    if k' = k then (k, v) :: rest else (k', v') :: dictSet rest k v

/-- `dict.get`. -/
def dictGet (l : List (String × Record)) (k : String) : Option Record :=
  match l with
  | [] => none
  | (k', v') :: rest => if k' = k then some v' else dictGet rest k

/-- `del dict[k]`: removes the key (dict keys are unique, so filtering all
occurrences coincides with Python on every reachable book). -/
def dictDel (l : List (String × Record)) (k : String) :
    List (String × Record) :=
  l.filter (fun kv => kv.1 ≠ k)

/-- The `AddressBook`: the `UserDict` data mapping. -/
structure AddressBook where
  data : List (String × Record)
deriving DecidableEq, Repr

/-- `AddressBook.add_record`: `self.data[record.name.value] = record`. -/
def AddressBook.add_record (book : AddressBook) (r : Record) : AddressBook :=
  ⟨dictSet book.data r.name r⟩

/-- `AddressBook.find`: `self.data.get(name)`. -/
def AddressBook.find (book : AddressBook) (name : String) : Option Record :=
  dictGet book.data name

/-- `AddressBook.delete`: `ValueError` when the name is absent, otherwise
removes the entry. -/
def AddressBook.delete (book : AddressBook) (name : String) :
    Except PyErr AddressBook :=
  if (dictGet book.data name).isSome then .ok ⟨dictDel book.data name⟩
  else .error (.valueError "Name not found in address book.")

/-- The loop body of `get_upcoming_birthdays` over the remaining records:
for each record with a birthday, re-parse it, substitute this year (a
`ValueError` here aborts the whole call), test the unadjusted date against
`[today, seven_days_later]`, shift Saturday +2 / Sunday +1, and collect
name/date pairs in iteration order. -/
def upcomingAux (today seven_days_later : Date) :
    List (String × Record) → Except PyErr (List (String × Date))
  | [] => .ok []
  | (_, r) :: rest =>
    match r.birthday with
    | none => upcomingAux today seven_days_later rest
    | some b =>
      match strptimeDMY b.value with
      | none => .error (.valueError "strptime failed")
      | some bd =>
        match bd.replaceYear today.year with
        | .error e => .error e
        | .ok bty =>
          if Date.le today bty && Date.le bty seven_days_later then
            let adjusted :=
              if bty.weekday == 5 then bty.addDays 2
              else if bty.weekday == 6 then bty.addDays 1
              else bty
            match upcomingAux today seven_days_later rest with
            | .ok tail => .ok ((r.name, adjusted) :: tail)
            | .error e => .error e
          else upcomingAux today seven_days_later rest

/-- `AddressBook.get_upcoming_birthdays` with `today` explicit. -/
def AddressBook.get_upcoming_birthdays (book : AddressBook) (today : Date) :
    Except PyErr (List (String × Date)) :=
  upcomingAux today (today.addDays 7) book.data

/-- `AddressBook.__str__`. -/
def AddressBook.render (book : AddressBook) : String :=
  let records :=
    String.intercalate "\n" (book.data.map (fun kv => kv.2.render))
  "AddressBook:\n" ++ (if records ≠ "" then records else "No records")

/-! ## Command handlers

Each handler body returns `Except PyErr (String × AddressBook)` (the string
it returns plus the book as the handler's mutations leave it; in the source
mutation happens through aliased objects).  The `input_error` decorator
turns the three caught exception kinds into strings; in every handler each
exception is raised before any mutation, so the book is unchanged on the
error path.  String concatenation is associative, so the f-strings that
start with `Error: ` are grouped here as that prefix ++ the rest. -/

/-- The `input_error` decorator applied to a handler body's outcome. -/
def input_error (book : AddressBook)
    (r : Except PyErr (String × AddressBook)) : String × AddressBook :=
  match r with
  | .ok x => x
  | .error (.valueError msg) => ("Error: " ++ msg, book)
  | .error .indexError => ("Error: " ++ "Not enough arguments provided.", book)
  | .error .keyError => ("Error: " ++ "Contact not found.", book)

/-- Body of `handle_add`. -/
def handle_add_body (args : List String) (book : AddressBook) :
    Except PyErr (String × AddressBook) :=
  match args with
  | [name, phone] =>
    match book.find name with
    | some record =>
      match record.add_phone phone with
      | .ok record' =>
        .ok ("Contact \x27" ++ name ++ "\x27 added with phone " ++ phone ++
          ".", ⟨dictSet book.data name record'⟩)
      | .error e => .error e
    | none =>
      match (Record.init name).add_phone phone with
      | .ok record' =>
        .ok ("Contact \x27" ++ name ++ "\x27 added with phone " ++ phone ++
          ".", book.add_record record')
      | .error e => .error e
  | _ =>
    .ok ("Error: " ++ "\x27add\x27 command should have two arguments [name] [phone]",
      book)

/-- `handle_add` (decorated). -/
def handle_add (args : List String) (book : AddressBook) :
    String × AddressBook :=
  input_error book (handle_add_body args book)

/-- Body of `handle_change`.  Note the inner `try/except ValueError` around
`edit_phone`: its message is returned as `str(e)`, without the
`"Error: "` prefix the decorator would add. -/
def handle_change_body (args : List String) (book : AddressBook) :
    Except PyErr (String × AddressBook) :=
  match args with
  | [name, old_phone, new_phone] =>
    match book.find name with
    | some record =>
      match record.edit_phone old_phone new_phone with
      | .ok record' =>
        .ok ("Phone number for \x27" ++ name ++ "\x27 changed from " ++
          old_phone ++ " to " ++ new_phone ++ ".",
          ⟨dictSet book.data name record'⟩)
      | .error (.valueError msg) => .ok (msg, book)
      | .error e => .error e
    | none => .ok ("Error: " ++ ("Contact \x27" ++ name ++ "\x27 not found."), book)
  | _ =>
    .ok ("Error: " ++ "\x27change\x27 command should have three arguments [name] [old phone] [new phone]",
      book)

/-- `handle_change` (decorated). -/
def handle_change (args : List String) (book : AddressBook) :
    String × AddressBook :=
  input_error book (handle_change_body args book)

/-- Body of `handle_phone`. -/
def handle_phone_body (args : List String) (book : AddressBook) :
    Except PyErr (String × AddressBook) :=
  match args with
  | [name] =>
    match book.find name with
    | some record =>
      .ok ("Phone numbers for " ++ name ++ ": " ++
        String.intercalate ", " (record.phones.map (·.value)), book)
    | none => .ok ("Error: " ++ ("Contact \x27" ++ name ++ "\x27 not found."), book)
  | _ =>
    .ok ("Error: " ++ "\x27phone\x27 command should have one argument [name]", book)

/-- `handle_phone` (decorated). -/
def handle_phone (args : List String) (book : AddressBook) :
    String × AddressBook :=
  input_error book (handle_phone_body args book)

/-- `handle_all` (decorated; takes no argument list in the source). -/
def handle_all (book : AddressBook) : String × AddressBook :=
  input_error book (.ok (book.render, book))

/-- Body of `handle_add_birthday`.  As in `handle_change`, the inner
`except ValueError` returns the bare message without the prefix. -/
def handle_add_birthday_body (args : List String) (book : AddressBook) :
    Except PyErr (String × AddressBook) :=
  match args with
  | [name, birthday] =>
    match book.find name with
    | some record =>
      match record.add_birthday birthday with
      | .ok record' =>
        .ok ("Birthday for \x27" ++ name ++ "\x27 set to " ++ birthday ++
          ".", ⟨dictSet book.data name record'⟩)
      | .error (.valueError msg) => .ok (msg, book)
      | .error e => .error e
    | none => .ok ("Error: " ++ ("Contact \x27" ++ name ++ "\x27 not found."), book)
  | _ =>
    .ok ("Error: " ++ "\x27add-birthday\x27 command should have two arguments [name] [birthday]",
      book)

/-- `handle_add_birthday` (decorated). -/
def handle_add_birthday (args : List String) (book : AddressBook) :
    String × AddressBook :=
  input_error book (handle_add_birthday_body args book)

/-- Body of `handle_show_birthday`. -/
def handle_show_birthday_body (args : List String) (book : AddressBook) :
    Except PyErr (String × AddressBook) :=
  match args with
  | [name] =>
    match book.find name with
    | some record =>
      match record.birthday with
      | some b =>
        .ok ("Birthday for " ++ name ++ " is " ++ b.value ++ ".", book)
      | none =>
        .ok ("Error: " ++ ("Contact \x27" ++ name ++
          "\x27 not found or has no birthday set."), book)
    | none =>
      .ok ("Error: " ++ ("Contact \x27" ++ name ++
        "\x27 not found or has no birthday set."), book)
  | _ =>
    .ok ("Error: " ++ "\x27show-birthday\x27 command should have one argument [name]",
      book)

/-- `handle_show_birthday` (decorated). -/
def handle_show_birthday (args : List String) (book : AddressBook) :
    String × AddressBook :=
  input_error book (handle_show_birthday_body args book)

/-- Zero-pad a number to two digits (`strftime` day/month). -/
def pad2 (n : Nat) : String :=
  if n < 10 then "0" ++ toString n else toString n

/-- Zero-pad a year to four digits (`strftime("%Y")`). -/
def pad4 (n : Nat) : String :=
  if n < 10 then "000" ++ toString n
  else if n < 100 then "00" ++ toString n
  else if n < 1000 then "0" ++ toString n
  else toString n

/-- `date.strftime("%d.%m.%Y")`. -/
def strftimeDMY (d : Date) : String :=
  pad2 d.day ++ "." ++ pad2 d.month ++ "." ++ pad4 d.year

/-- One line of the `handle_birthdays` report. -/
def birthdayLine (entry : String × Date) : String :=
  entry.1 ++ "\x27s birthday celebration is on " ++ strftimeDMY entry.2

/-- Body of `handle_birthdays` (takes no argument list in the source;
`today` explicit). -/
def handle_birthdays_body (book : AddressBook) (today : Date) :
    Except PyErr (String × AddressBook) :=
  match book.get_upcoming_birthdays today with
  | .error e => .error e
  | .ok upcoming =>
    if upcoming ≠ [] then
      .ok (String.intercalate "\n" (upcoming.map birthdayLine), book)
    else .ok ("No birthdays in the next 7 days.", book)

/-- `handle_birthdays` (decorated). -/
def handle_birthdays (book : AddressBook) (today : Date) :
    String × AddressBook :=
  input_error book (handle_birthdays_body book today)

/-! ## Spec-side definitions (written from the claims' words, for
comparison with the source-side definitions above) -/

/-- The claim's reading of a "DD.MM.YYYY-format string denoting a real
Gregorian calendar date": two-digit day, two-digit month, four-digit year
separated by dots, all decimal digits, calendar-valid (leap years by the
Gregorian rule). -/
def specStrictDDMMYYYY (s : String) : Bool :=
  match splitDots s.data with
  | [ds, ms, ys] =>
    fieldIsdigit ds && ds.length == 2 && fieldIsdigit ms && ms.length == 2 &&
      fieldIsdigit ys && ys.length == 4 &&
      1 ≤ digitsToNat ys && 1 ≤ digitsToNat ms && digitsToNat ms ≤ 12 &&
      1 ≤ digitsToNat ds &&
      digitsToNat ds ≤ daysInMonth (digitsToNat ys) (digitsToNat ms)
  | _ => false

/-- The amended format: day and month of one or two digits (zero-padding
optional), exactly four-digit year, dot-separated, denoting a real
Gregorian calendar date. -/
def specBirthdayFormat (s : String) : Bool :=
  match splitDots s.data with
  | [ds, ms, ys] =>
    fieldIsdigit ds && ds.length ≤ 2 && fieldIsdigit ms && ms.length ≤ 2 &&
      fieldIsdigit ys && ys.length == 4 &&
      1 ≤ digitsToNat ys && 1 ≤ digitsToNat ms && digitsToNat ms ≤ 12 &&
      1 ≤ digitsToNat ds &&
      digitsToNat ds ≤ daysInMonth (digitsToNat ys) (digitsToNat ms)
  | _ => false

/-- The claim's description of one record's contribution to the
upcoming-birthdays report: a record with a birthday whose this-year
occurrence (month/day with year = today's year, never rolled forward) lies
in `[today, today + 7 days]` contributes its name and the occurrence
shifted +2 days on a Saturday and +1 day on a Sunday; other records
contribute nothing. -/
def upcomingSpec (today : Date) (nr : String × Record) :
    Option (String × Date) :=
  match nr.2.birthday with
  | none => none
  | some b =>
    match strptimeDMY b.value with
    | none => none
    | some bd =>
      let occ : Date := ⟨today.year, bd.month, bd.day⟩
      if Date.le today occ && Date.le occ (today.addDays 7) then
        some (nr.2.name,
          if occ.weekday == 5 then occ.addDays 2
          else if occ.weekday == 6 then occ.addDays 1
          else occ)
      else none

/-! ## Calendar lemmas -/

lemma daysInMonth_le_31 (y m : Nat) : daysInMonth y m ≤ 31 := by
  unfold daysInMonth
  split
  · split <;> omega
  · split <;> omega

lemma daysInMonth_pos (y m : Nat) : 1 ≤ daysInMonth y m := by
  unfold daysInMonth
  split
  · split <;> omega
  · split <;> omega

set_option maxHeartbeats 1000000 in
lemma daysBeforeYear_succ (y : Nat) (hy : 1 ≤ y) :
    daysBeforeYear (y + 1) =
      daysBeforeYear y + (if isLeapYear y then 366 else 365) := by
  unfold daysBeforeYear
  cases h : isLeapYear y with
  | true =>
    simp only [if_pos]
    unfold isLeapYear at h
    simp only [Bool.and_eq_true, beq_iff_eq, Bool.or_eq_true, bne_iff_ne,
      ne_eq] at h
    omega
  | false =>
    simp only [Bool.false_eq_true, if_neg, not_false_eq_true]
    unfold isLeapYear at h
    simp only [Bool.and_eq_false_iff, beq_eq_false_iff_ne, ne_eq,
      Bool.or_eq_false_iff, bne_eq_false_iff_eq] at h
    rcases h with h | ⟨h1, h2⟩
    · omega
    · omega

lemma daysBeforeYear_le_succ (y : Nat) :
    daysBeforeYear y ≤ daysBeforeYear (y + 1) := by
  rcases Nat.eq_zero_or_pos y with h | h
  · subst h
    simp [daysBeforeYear]
  · rw [daysBeforeYear_succ y h]
    split <;> omega

lemma daysBeforeYear_mono {y y' : Nat} (h : y ≤ y') :
    daysBeforeYear y ≤ daysBeforeYear y' := by
  induction y' with
  | zero =>
    have : y = 0 := by omega
    simp [this]
  | succ n ih =>
    rcases Nat.lt_or_ge y (n + 1) with h' | h'
    · exact le_trans (ih (by omega)) (daysBeforeYear_le_succ n)
    · have : y = n + 1 := by omega
      simp [this]

lemma daysBeforeMonth_succ (y m : Nat) (hm : 1 ≤ m) :
    daysBeforeMonth y (m + 1) = daysBeforeMonth y m + daysInMonth y m := by
  rcases Nat.exists_eq_add_of_le hm with ⟨n, rfl⟩
  simp only [daysBeforeMonth, Nat.add_sub_cancel_left, Nat.add_sub_cancel]
  rw [show 1 + n = n + 1 by omega, Finset.sum_range_succ]

lemma daysBeforeMonth_mono (y : Nat) {m m' : Nat} (h : m ≤ m') :
    daysBeforeMonth y m ≤ daysBeforeMonth y m' := by
  exact Finset.sum_le_sum_of_subset (Finset.range_subset.mpr (by omega))

lemma daysBeforeMonth_13 (y : Nat) :
    daysBeforeMonth y 13 = if isLeapYear y then 366 else 365 := by
  by_cases h : isLeapYear y <;>
    simp [daysBeforeMonth, daysInMonth, h, Finset.sum_range_succ]

lemma daysBeforeMonth_day_le (y m d : Nat) (hm : 1 ≤ m) (hm' : m ≤ 12)
    (hd : d ≤ daysInMonth y m) :
    daysBeforeMonth y m + d ≤ if isLeapYear y then 366 else 365 := by
  calc daysBeforeMonth y m + d ≤ daysBeforeMonth y m + daysInMonth y m := by
        omega
    _ = daysBeforeMonth y (m + 1) := (daysBeforeMonth_succ y m hm).symm
    _ ≤ daysBeforeMonth y 13 := daysBeforeMonth_mono y (by omega)
    _ = if isLeapYear y then 366 else 365 := daysBeforeMonth_13 y

/-- A valid date's ordinal stays within its year. -/
lemma toOrdinal_le_year_end (d : Date) (h : d.valid = true) :
    d.toOrdinal ≤ daysBeforeYear (d.year + 1) := by
  simp only [Date.valid, Bool.and_eq_true, decide_eq_true_eq] at h
  obtain ⟨⟨⟨⟨h1, h2⟩, h3⟩, h4⟩, h5⟩ := h
  rw [daysBeforeYear_succ d.year h1]
  have := daysBeforeMonth_day_le d.year d.month d.day h2 h3 h5
  unfold Date.toOrdinal
  split at this <;> simp_all <;> omega

/-- A valid date's ordinal lies past the days before its year. -/
lemma year_start_lt_toOrdinal (d : Date) (h : d.valid = true) :
    daysBeforeYear d.year < d.toOrdinal := by
  simp only [Date.valid, Bool.and_eq_true, decide_eq_true_eq] at h
  unfold Date.toOrdinal
  omega

/-- Strict monotonicity of `toOrdinal` on valid dates with respect to the
lexicographic comparison Python uses on `date` objects. -/
lemma toOrdinal_lt_of_lt (a b : Date) (ha : a.valid = true)
    (hb : b.valid = true) (hlt : Date.lt a b = true) :
    a.toOrdinal < b.toOrdinal := by
  cases a with
  | mk y1 m1 d1 =>
    cases b with
    | mk y2 m2 d2 =>
      have hend := toOrdinal_le_year_end ⟨y1, m1, d1⟩ ha
      have hstart := year_start_lt_toOrdinal ⟨y2, m2, d2⟩ hb
      simp only [Date.valid, Bool.and_eq_true, decide_eq_true_eq] at ha hb
      obtain ⟨⟨⟨⟨ha1, ha2⟩, ha3⟩, ha4⟩, ha5⟩ := ha
      obtain ⟨⟨⟨⟨hb1, hb2⟩, hb3⟩, hb4⟩, hb5⟩ := hb
      simp only [Date.lt, decide_eq_true_eq] at hlt
      simp only [Date.toOrdinal] at hend hstart ⊢
      rcases hlt with hy | ⟨hy, hm | ⟨hm, hd⟩⟩
      · have h2 : daysBeforeYear (y1 + 1) ≤ daysBeforeYear y2 :=
          daysBeforeYear_mono (by omega)
        omega
      · subst hy
        have h1 : daysBeforeMonth y1 m1 + d1 ≤ daysBeforeMonth y1 (m1 + 1) := by
          rw [daysBeforeMonth_succ y1 m1 ha2]
          omega
        have h2 : daysBeforeMonth y1 (m1 + 1) ≤ daysBeforeMonth y1 m2 :=
          daysBeforeMonth_mono y1 (by omega)
        omega
      · subst hy
        subst hm
        omega

/-- Python's `<=` on dates is `<` or equality. -/
lemma date_le_iff (a b : Date) :
    Date.le a b = true ↔ (Date.lt a b = true ∨ a = b) := by
  cases a with
  | mk ay am ad =>
    cases b with
    | mk bay bam bad =>
      simp only [Date.le, Date.lt, decide_eq_true_eq, Date.mk.injEq]
      omega

/-- Python's date comparison is total: `not (a < b)` is `b <= a`. -/
lemma date_not_lt (a b : Date) :
    Date.lt a b = false ↔ Date.le b a = true := by
  cases a with
  | mk ay am ad =>
    cases b with
    | mk bay bam bad =>
      simp only [Date.le, Date.lt, decide_eq_false_iff_not,
        decide_eq_true_eq]
      omega

/-- Monotonicity of `toOrdinal` on valid dates. -/
lemma toOrdinal_le_of_le (a b : Date) (ha : a.valid = true)
    (hb : b.valid = true) (hle : Date.le a b = true) :
    a.toOrdinal ≤ b.toOrdinal := by
  rcases (date_le_iff a b).mp hle with h | rfl
  · exact le_of_lt (toOrdinal_lt_of_lt a b ha hb h)
  · exact le_refl _

/-! ## Dictionary and list lemmas -/

lemma dictGet_set_self (l : List (String × Record)) (k : String) (v : Record) :
    dictGet (dictSet l k v) k = some v := by
  induction l with
  | nil => simp [dictSet, dictGet]
  | cons kv rest ih =>
    obtain ⟨k', v'⟩ := kv
    by_cases h : k' = k
    · simp [dictSet, dictGet, h]
    · simp [dictSet, dictGet, h, ih]

lemma dictGet_set_other (l : List (String × Record)) (k k' : String)
    (v : Record) (h : k' ≠ k) :
    dictGet (dictSet l k v) k' = dictGet l k' := by
  have h' : k ≠ k' := Ne.symm h
  induction l with
  | nil => simp [dictSet, dictGet, h']
  | cons kv rest ih =>
    obtain ⟨k0, v0⟩ := kv
    by_cases h0 : k0 = k
    · subst h0
      simp [dictSet, dictGet, h']
    · simp only [dictSet, if_neg h0]
      by_cases h1 : k0 = k'
      · simp [dictGet, h1]
      · simp [dictGet, h1, ih]

lemma dictSet_length_of_mem (l : List (String × Record)) (k : String)
    (v v' : Record) (h : dictGet l k = some v') :
    (dictSet l k v).length = l.length := by
  induction l with
  | nil => simp [dictGet] at h
  | cons kv rest ih =>
    obtain ⟨k0, v0⟩ := kv
    by_cases h0 : k0 = k
    · simp [dictSet, h0]
    · simp only [dictGet, if_neg h0] at h
      simp [dictSet, if_neg h0, ih h]

lemma dictSet_set_same (l : List (String × Record)) (k : String)
    (v1 v2 : Record) :
    dictSet (dictSet l k v1) k v2 = dictSet l k v2 := by
  induction l with
  | nil => simp [dictSet]
  | cons kv rest ih =>
    obtain ⟨k0, v0⟩ := kv
    by_cases h0 : k0 = k
    · simp [dictSet, h0]
    · simp [dictSet, h0, ih]

lemma dictGet_del_self (l : List (String × Record)) (k : String) :
    dictGet (dictDel l k) k = none := by
  induction l with
  | nil => simp [dictDel, dictGet]
  | cons kv rest ih =>
    obtain ⟨k0, v0⟩ := kv
    by_cases h0 : k0 = k
    · simpa [dictDel, h0] using ih
    · simpa [dictDel, dictGet, h0] using ih

lemma dictGet_del_other (l : List (String × Record)) (k k' : String)
    (h : k' ≠ k) :
    dictGet (dictDel l k) k' = dictGet l k' := by
  have h' : k ≠ k' := Ne.symm h
  induction l with
  | nil => simp [dictDel]
  | cons kv rest ih =>
    obtain ⟨k0, v0⟩ := kv
    by_cases h0 : k0 = k
    · subst h0
      simpa [dictDel, dictGet, h'] using ih
    · by_cases h1 : k0 = k'
      · simp [dictDel, dictGet, h0, h1, h]
      · simpa [dictDel, dictGet, h0, h1] using ih

/-- `replaceFirstPhone` at the first matching index is `List.set`. -/
lemma replaceFirstPhone_eq_set (p : Phone) (old : String) :
    ∀ (l : List Phone) (i : Nat) (hi : i < l.length),
      (l.get ⟨i, hi⟩).value = old →
      (∀ j (hj : j < i), (l.get ⟨j, hj.trans hi⟩).value ≠ old) →
      replaceFirstPhone l old p = l.set i p := by
  intro l
  induction l with
  | nil => intro i hi; simp at hi
  | cons q rest ih =>
    intro i hi hmatch hfirst
    cases i with
    | zero =>
      simp only [List.get] at hmatch
      simp [replaceFirstPhone, hmatch, List.set]
    | succ n =>
      have hq : q.value ≠ old := by
        have := hfirst 0 (Nat.succ_pos n)
        simpa using this
      rw [replaceFirstPhone, if_neg (by simpa using hq)]
      rw [show (q :: rest).set (n + 1) p = q :: rest.set n p from rfl]
      congr 1
      refine ih n (by simpa using hi) (by simpa using hmatch) ?_
      intro j hj
      have := hfirst (j + 1) (by omega)
      simpa using this
lemma fieldIsdigit_one_le_length (cs : List Char)
    (h : fieldIsdigit cs = true) : 1 ≤ cs.length := by
  cases cs with
  | nil => simp [fieldIsdigit, List.isEmpty] at h
  | cons c rest => simp

lemma isSome_ite_some (c : Bool) (x : Date) :
    (if c = true then some x else (none : Option Date)).isSome = c := by
  cases c <;> rfl

/-- The source's `validate_birthday` coincides with the amended spec
format predicate. -/
lemma validate_birthday_eq_spec (s : String) :
    validate_birthday s = specBirthdayFormat s := by
  unfold validate_birthday strptimeDMY specBirthdayFormat
  rcases h : splitDots s.data with _ | ⟨ds, _ | ⟨ms, _ | ⟨ys, _ | _⟩⟩⟩ <;>
    simp only [] <;> try rfl
  rw [isSome_ite_some, Bool.eq_iff_iff]
  have h31 := daysInMonth_le_31 (digitsToNat ys) (digitsToNat ms)
  have hld := fieldIsdigit_one_le_length ds
  have hlm := fieldIsdigit_one_le_length ms
  unfold dayFieldOk monthFieldOk yearFieldOk
  simp only [Bool.and_eq_true, decide_eq_true_eq, beq_iff_eq, and_assoc]
  constructor
  · rintro ⟨h1, h2, h3, h4, h5, h6, h7, h8, h9, h10, h11, h12, h13, h14⟩
    exact ⟨h1, h3, h6, h8, h11, h12, h13, h9, h10, h4, h14⟩
  · rintro ⟨h1, h2, h3, h4, h5, h6, h7, h8, h9, h10, h11⟩
    exact ⟨h1, hld h1, h2, h10, by omega, h3, hlm h3, h4, h8, h9, h5, h6,
      h7, h11⟩

lemma isLeapYear_succ_false (y : Nat) (h : isLeapYear y = true) :
    isLeapYear (y + 1) = false := by
  unfold isLeapYear at h ⊢
  simp only [Bool.and_eq_true, beq_iff_eq, Bool.or_eq_true, bne_iff_ne,
    ne_eq] at h
  simp only [Bool.and_eq_false_iff, beq_eq_false_iff_ne, ne_eq]
  left
  omega

lemma feb29_invalid (y : Nat) (h : isLeapYear y = false) :
    Date.valid ⟨y, 2, 29⟩ = false := by
  simp [Date.valid, daysInMonth, h]

/-- An unsatisfiable year substitution anywhere in the book makes the
whole `get_upcoming_birthdays` loop raise. -/
lemma upcomingAux_error_of_mem (today seven : Date) :
    ∀ (l : List (String × Record)) n r b bd, (n, r) ∈ l →
      r.birthday = some b → strptimeDMY b.value = some bd →
      (Date.mk today.year bd.month bd.day).valid = false →
      ∃ e, upcomingAux today seven l = .error e := by
  intro l
  induction l with
  | nil =>
    intro n r b bd hmem
    simp at hmem
  | cons kv rest ih =>
    intro n r b bd hmem hb hparse hinvalid
    obtain ⟨k0, r0⟩ := kv
    rcases List.mem_cons.mp hmem with heq | hmem'
    · obtain ⟨rfl, rfl⟩ := Prod.mk.injEq .. ▸ heq
      exact ⟨.valueError "day is out of range for month",
        by simp [upcomingAux, hb, hparse, Date.replaceYear, hinvalid]⟩
    · obtain ⟨e, he⟩ := ih n r b bd hmem' hb hparse hinvalid
      cases hb0 : r0.birthday with
      | none => exact ⟨e, by simp [upcomingAux, hb0, he]⟩
      | some b0 =>
        cases hp0 : strptimeDMY b0.value with
        | none =>
          exact ⟨.valueError "strptime failed",
            by simp [upcomingAux, hb0, hp0]⟩
        | some bd0 =>
          cases hrep : Date.replaceYear bd0 today.year with
          | error e0 => exact ⟨e0, by simp [upcomingAux, hb0, hp0, hrep]⟩
          | ok bty0 =>
            by_cases hw : (Date.le today bty0 && Date.le bty0 seven) = true
            · exact ⟨e, by simp [upcomingAux, hb0, hp0, hrep, hw, he]⟩
            · exact ⟨e, by simp [upcomingAux, hb0, hp0, hrep,
                Bool.not_eq_true _ ▸ hw, he]⟩

/-! ## Handler output lemmas: every handler returns a plain string (no
uncaught exception), and that string is "Error: "-prefixed, a success
message, or one of the two bare inner-catch messages. -/

lemma handle_add_out (args : List String) (book : AddressBook) :
    (∃ t, (handle_add args book).1 = "Error: " ++ t) ∨
    (∃ name phone, args = [name, phone] ∧
      (handle_add args book).1 =
        "Contact \x27" ++ name ++ "\x27 added with phone " ++ phone ++
          ".") := by
  rcases args with _ | ⟨a1, _ | ⟨a2, _ | ⟨a3, rest⟩⟩⟩
  · exact .inl
      ⟨"\x27add\x27 command should have two arguments [name] [phone]", rfl⟩
  · exact .inl
      ⟨"\x27add\x27 command should have two arguments [name] [phone]", rfl⟩
  · cases hfind : book.find a1 with
    | none =>
      cases hv : validate_phone a2 with
      | true =>
        refine .inr ⟨a1, a2, rfl, ?_⟩
        simp [handle_add, handle_add_body, input_error, Record.add_phone,
          Record.init, mkPhone, hfind, hv]
      | false =>
        refine .inl ⟨"Phone number must contain exactly 10 digits.", ?_⟩
        simp [handle_add, handle_add_body, input_error, Record.add_phone,
          Record.init, mkPhone, hfind, hv]
    | some record =>
      cases hv : validate_phone a2 with
      | true =>
        refine .inr ⟨a1, a2, rfl, ?_⟩
        simp [handle_add, handle_add_body, input_error, Record.add_phone,
          mkPhone, hfind, hv]
      | false =>
        refine .inl ⟨"Phone number must contain exactly 10 digits.", ?_⟩
        simp [handle_add, handle_add_body, input_error, Record.add_phone,
          mkPhone, hfind, hv]
  · exact .inl
      ⟨"\x27add\x27 command should have two arguments [name] [phone]", rfl⟩

lemma handle_change_out (args : List String) (book : AddressBook) :
    (∃ t, (handle_change args book).1 = "Error: " ++ t) ∨
    (∃ name op np, args = [name, op, np] ∧
      (handle_change args book).1 =
        "Phone number for \x27" ++ name ++ "\x27 changed from " ++ op ++
          " to " ++ np ++ ".") ∨
    (handle_change args book).1 = "Old phone number not found." ∨
    (handle_change args book).1 =
      "Phone number must contain exactly 10 digits." := by
  rcases args with _ | ⟨a1, _ | ⟨a2, _ | ⟨a3, _ | ⟨a4, rest⟩⟩⟩⟩
  · exact .inl ⟨"\x27change\x27 command should have three arguments [name] [old phone] [new phone]",
      rfl⟩
  · exact .inl ⟨"\x27change\x27 command should have three arguments [name] [old phone] [new phone]",
      rfl⟩
  · exact .inl ⟨"\x27change\x27 command should have three arguments [name] [old phone] [new phone]",
      rfl⟩
  · cases hfind : book.find a1 with
    | none =>
      refine .inl ⟨"Contact \x27" ++ a1 ++ "\x27 not found.", ?_⟩
      simp [handle_change, handle_change_body, input_error, hfind]
    | some record =>
      cases hfp : record.find_phone a2 with
      | none =>
        refine .inr (.inr (.inl ?_))
        simp [handle_change, handle_change_body, input_error,
          Record.edit_phone, hfind, hfp]
      | some q =>
        cases hv : validate_phone a3 with
        | false =>
          refine .inr (.inr (.inr ?_))
          simp [handle_change, handle_change_body, input_error,
            Record.edit_phone, mkPhone, hfind, hfp, hv]
        | true =>
          refine .inr (.inl ⟨a1, a2, a3, rfl, ?_⟩)
          simp [handle_change, handle_change_body, input_error,
            Record.edit_phone, mkPhone, hfind, hfp, hv]
  · exact .inl ⟨"\x27change\x27 command should have three arguments [name] [old phone] [new phone]",
      rfl⟩

lemma handle_phone_out (args : List String) (book : AddressBook) :
    (∃ t, (handle_phone args book).1 = "Error: " ++ t) ∨
    (∃ name r, args = [name] ∧ book.find name = some r ∧
      (handle_phone args book).1 =
        "Phone numbers for " ++ name ++ ": " ++
          String.intercalate ", " (r.phones.map (·.value))) := by
  rcases args with _ | ⟨a1, _ | ⟨a2, rest⟩⟩
  · exact .inl
      ⟨"\x27phone\x27 command should have one argument [name]", rfl⟩
  · cases hfind : book.find a1 with
    | none =>
      refine .inl ⟨"Contact \x27" ++ a1 ++ "\x27 not found.", ?_⟩
      simp [handle_phone, handle_phone_body, input_error, hfind]
    | some record =>
      refine .inr ⟨a1, record, rfl, hfind, ?_⟩
      simp [handle_phone, handle_phone_body, input_error, hfind]
  · exact .inl
      ⟨"\x27phone\x27 command should have one argument [name]", rfl⟩

lemma handle_all_out (book : AddressBook) :
    (handle_all book).1 = book.render := rfl

lemma handle_add_birthday_out (args : List String) (book : AddressBook) :
    (∃ t, (handle_add_birthday args book).1 = "Error: " ++ t) ∨
    (∃ name bs, args = [name, bs] ∧
      (handle_add_birthday args book).1 =
        "Birthday for \x27" ++ name ++ "\x27 set to " ++ bs ++ ".") ∨
    (handle_add_birthday args book).1 =
      "Birthday must be in DD.MM.YYYY format." := by
  rcases args with _ | ⟨a1, _ | ⟨a2, _ | ⟨a3, rest⟩⟩⟩
  · exact .inl ⟨"\x27add-birthday\x27 command should have two arguments [name] [birthday]",
      rfl⟩
  · exact .inl ⟨"\x27add-birthday\x27 command should have two arguments [name] [birthday]",
      rfl⟩
  · cases hfind : book.find a1 with
    | none =>
      refine .inl ⟨"Contact \x27" ++ a1 ++ "\x27 not found.", ?_⟩
      simp [handle_add_birthday, handle_add_birthday_body, input_error,
        hfind]
    | some record =>
      cases hv : validate_birthday a2 with
      | false =>
        refine .inr (.inr ?_)
        simp [handle_add_birthday, handle_add_birthday_body, input_error,
          Record.add_birthday, mkBirthday, hfind, hv]
      | true =>
        refine .inr (.inl ⟨a1, a2, rfl, ?_⟩)
        simp [handle_add_birthday, handle_add_birthday_body, input_error,
          Record.add_birthday, mkBirthday, hfind, hv]
  · exact .inl ⟨"\x27add-birthday\x27 command should have two arguments [name] [birthday]",
      rfl⟩

lemma handle_show_birthday_out (args : List String) (book : AddressBook) :
    (∃ t, (handle_show_birthday args book).1 = "Error: " ++ t) ∨
    (∃ name r b, args = [name] ∧ book.find name = some r ∧
      r.birthday = some b ∧
      (handle_show_birthday args book).1 =
        "Birthday for " ++ name ++ " is " ++ b.value ++ ".") := by
  rcases args with _ | ⟨a1, _ | ⟨a2, rest⟩⟩
  · exact .inl
      ⟨"\x27show-birthday\x27 command should have one argument [name]", rfl⟩
  · cases hfind : book.find a1 with
    | none =>
      refine .inl ⟨"Contact \x27" ++ a1 ++
        "\x27 not found or has no birthday set.", ?_⟩
      simp [handle_show_birthday, handle_show_birthday_body, input_error,
        hfind]
    | some record =>
      cases hb : record.birthday with
      | none =>
        refine .inl ⟨"Contact \x27" ++ a1 ++
          "\x27 not found or has no birthday set.", ?_⟩
        simp [handle_show_birthday, handle_show_birthday_body, input_error,
          hfind, hb]
      | some b =>
        refine .inr ⟨a1, record, b, rfl, hfind, hb, ?_⟩
        simp [handle_show_birthday, handle_show_birthday_body, input_error,
          hfind, hb]
  · exact .inl
      ⟨"\x27show-birthday\x27 command should have one argument [name]", rfl⟩

lemma handle_birthdays_out (book : AddressBook) (today : Date) :
    (∃ t, (handle_birthdays book today).1 = "Error: " ++ t) ∨
    (handle_birthdays book today).1 = "No birthdays in the next 7 days." ∨
    (∃ entries, book.get_upcoming_birthdays today = .ok entries ∧
      (handle_birthdays book today).1 =
        String.intercalate "\n" (entries.map birthdayLine)) := by
  cases hup : book.get_upcoming_birthdays today with
  | error e =>
    left
    cases e with
    | valueError msg =>
      exact ⟨msg, by
        simp [handle_birthdays, handle_birthdays_body, input_error, hup]⟩
    | indexError =>
      exact ⟨"Not enough arguments provided.", by
        simp [handle_birthdays, handle_birthdays_body, input_error, hup]⟩
    | keyError =>
      exact ⟨"Contact not found.", by
        simp [handle_birthdays, handle_birthdays_body, input_error, hup]⟩
  | ok entries =>
    cases entries with
    | nil =>
      refine .inr (.inl ?_)
      simp [handle_birthdays, handle_birthdays_body, input_error, hup]
    | cons e es =>
      refine .inr (.inr ⟨e :: es, rfl, ?_⟩)
      simp [handle_birthdays, handle_birthdays_body, input_error, hup]

/-! ## Claim theorems -/

/-- C3: for every string `s`, `Phone` construction from `s` succeeds iff
`s` consists solely of decimal digits and has length exactly 10; on
success the stored value round-trips unchanged, and on failure a
`ValidationError` (a `ValueError` carrying the phone format message) is
signaled. -/
theorem C3_phone_validation (s : String) :
    (mkPhone s = .ok ⟨s⟩ ↔
      (s.length = 10 ∧ ∀ c ∈ s.data, c.isDigit = true)) ∧
    (¬(s.length = 10 ∧ ∀ c ∈ s.data, c.isDigit = true) →
      mkPhone s =
        .error (.valueError "Phone number must contain exactly 10 digits.")) ∧
    (∀ p, mkPhone s = .ok p → p.value = s) := by
  have hv : validate_phone s = true ↔
      (s.length = 10 ∧ ∀ c ∈ s.data, c.isDigit = true) := by
    unfold validate_phone pyIsdigit
    simp only [Bool.and_eq_true, List.all_eq_true, beq_iff_eq, bne_iff_ne,
      ne_eq]
    constructor
    · rintro ⟨⟨_, h2⟩, h3⟩
      exact ⟨h3, h2⟩
    · rintro ⟨h1, h2⟩
      exact ⟨⟨by omega, h2⟩, h1⟩
  refine ⟨?_, ?_, ?_⟩
  · constructor
    · intro hok
      by_cases h : validate_phone s = true
      · exact hv.mp h
      · unfold mkPhone at hok
        simp [h] at hok
    · intro h
      unfold mkPhone
      simp [hv.mpr h]
  · intro h
    have : validate_phone s ≠ true := fun hc => h (hv.mp hc)
    unfold mkPhone
    simp [this]
  · intro p hok
    unfold mkPhone at hok
    by_cases h : validate_phone s = true
    · simp [h] at hok
      rw [← hok]
    · simp [h] at hok

/-- C3 witness: a concrete success (with round-trip) and a concrete
failure. -/
theorem C3_phone_validation_witness :
    mkPhone "0123456789" = .ok ⟨"0123456789"⟩ ∧
    mkPhone "12345" =
      .error (.valueError "Phone number must contain exactly 10 digits.") := by
  constructor
  · exact (C3_phone_validation "0123456789").1.mpr (by decide)
  · exact (C3_phone_validation "12345").2.1 (by decide)

/-- C4: `edit_phone(old, new)` fails with the not-found `ValueError` when
`old` is not among the record's phones, fails with the validation
`ValueError` when `old` is present but `new` is not a valid 10-digit
phone, and on success replaces the first entry matching `old` in place
(`List.set` at the first matching index), preserving its position and the
rest of the list.  Failures return no record at all (`.error`), which is
the embedding of "the phone list is left completely unchanged": the
exception is raised before any mutation. -/
theorem C4_edit_phone (r : Record) (old_phone new_phone : String) :
    ((∀ p ∈ r.phones, p.value ≠ old_phone) →
      r.edit_phone old_phone new_phone =
        .error (.valueError "Old phone number not found.")) ∧
    ((∃ p ∈ r.phones, p.value = old_phone) →
      validate_phone new_phone = false →
      r.edit_phone old_phone new_phone =
        .error (.valueError "Phone number must contain exactly 10 digits.")) ∧
    (∀ i (hi : i < r.phones.length),
      (r.phones.get ⟨i, hi⟩).value = old_phone →
      (∀ j (hj : j < i), (r.phones.get ⟨j, hj.trans hi⟩).value ≠ old_phone) →
      validate_phone new_phone = true →
      r.edit_phone old_phone new_phone =
        .ok { r with phones := r.phones.set i ⟨new_phone⟩ }) := by
  refine ⟨?_, ?_, ?_⟩
  · intro h
    have hfind : r.find_phone old_phone = none := by
      unfold Record.find_phone
      rw [List.find?_eq_none]
      intro p hp
      simpa using h p hp
    unfold Record.edit_phone
    rw [hfind]
  · rintro ⟨p, hp, hpv⟩ hinvalid
    have hsome : r.find_phone old_phone ≠ none := by
      unfold Record.find_phone
      intro hc
      rw [List.find?_eq_none] at hc
      exact hc p hp (by simpa using hpv)
    rcases hq : r.find_phone old_phone with _ | q
    · exact absurd hq hsome
    · unfold Record.edit_phone
      rw [hq]
      unfold mkPhone
      simp [hinvalid]
  · intro i hi hmatch hfirst hvalid
    have hmem : r.phones.get ⟨i, hi⟩ ∈ r.phones := List.get_mem _ _ _
    have hsome : r.find_phone old_phone ≠ none := by
      unfold Record.find_phone
      intro hc
      rw [List.find?_eq_none] at hc
      exact hc _ hmem (by simpa using hmatch)
    rcases hq : r.find_phone old_phone with _ | q
    · exact absurd hq hsome
    · unfold Record.edit_phone mkPhone
      rw [hq]
      simp [hvalid,
        replaceFirstPhone_eq_set ⟨new_phone⟩ old_phone r.phones i hi hmatch
          hfirst]

/-- C4 witness: the spec's own example, `editPhone` on `["1111111111"]`. -/
theorem C4_edit_phone_witness :
    Record.edit_phone ⟨"Ann", [⟨"1111111111"⟩], none⟩ "1111111111"
        "2222222222" =
      .ok ⟨"Ann", [⟨"2222222222"⟩], none⟩ ∧
    Record.edit_phone ⟨"Ann", [⟨"1111111111"⟩], none⟩ "3333333333"
        "2222222222" =
      .error (.valueError "Old phone number not found.") := by
  constructor
  · exact (C4_edit_phone ⟨"Ann", [⟨"1111111111"⟩], none⟩ "1111111111"
      "2222222222").2.2 0 (by decide) (by decide) (by omega) (by decide)
  · exact (C4_edit_phone ⟨"Ann", [⟨"1111111111"⟩], none⟩ "3333333333"
      "2222222222").1 (by decide)

/-- C6 counterexample: the claim's "succeeds if and only if s is a
DD.MM.YYYY-format string" fails: `"1.1.2024"` is not in DD.MM.YYYY format
(day and month are single digits), yet `Birthday` construction succeeds,
because `strptime`'s `%d` and `%m` accept unpadded one-digit fields. -/
theorem C6_counterexample :
    mkBirthday "1.1.2024" = .ok ⟨"1.1.2024"⟩ ∧
    specStrictDDMMYYYY "1.1.2024" = false := by
  constructor
  · rfl
  · rfl

/-- C6 amended: `Birthday` construction from `s` succeeds iff `s` is
day.month.year with one-or-two-digit day and month (zero-padding
optional), an exactly four-digit year, and the triple denotes a real
Gregorian calendar date (leap years handled); on success the stored value
is the raw string (so re-rendering reproduces `s`), and otherwise a
`ValidationError` (`ValueError` with the birthday format message) is
signaled. -/
theorem C6_birthday_validation (s : String) :
    (mkBirthday s = .ok ⟨s⟩ ↔ specBirthdayFormat s = true) ∧
    (specBirthdayFormat s = false →
      mkBirthday s =
        .error (.valueError "Birthday must be in DD.MM.YYYY format.")) ∧
    (∀ b, mkBirthday s = .ok b → b.value = s) := by
  have hv := validate_birthday_eq_spec s
  refine ⟨?_, ?_, ?_⟩
  · constructor
    · intro hok
      by_cases h : validate_birthday s = true
      · rw [← hv]
        exact h
      · unfold mkBirthday at hok
        simp [h] at hok
    · intro h
      unfold mkBirthday
      rw [hv, h]
      simp
  · intro h
    unfold mkBirthday
    rw [hv, h]
    simp
  · intro b hok
    unfold mkBirthday at hok
    by_cases h : validate_birthday s = true
    · simp [h] at hok
      rw [← hok]
    · simp [h] at hok

/-- C6 witness: a real leap date is accepted and round-trips; an invalid
calendar date ("31.02.2024") and a Feb 29 of a non-leap year are
rejected with the `ValidationError`. -/
theorem C6_birthday_validation_witness :
    mkBirthday "29.02.2024" = .ok ⟨"29.02.2024"⟩ ∧
    mkBirthday "31.02.2024" =
      .error (.valueError "Birthday must be in DD.MM.YYYY format.") ∧
    mkBirthday "29.02.2023" =
      .error (.valueError "Birthday must be in DD.MM.YYYY format.") := by
  refine ⟨?_, ?_, ?_⟩
  · exact (C6_birthday_validation "29.02.2024").1.mpr (by rfl)
  · exact (C6_birthday_validation "31.02.2024").2.1 (by rfl)
  · exact (C6_birthday_validation "29.02.2023").2.1 (by rfl)

/-- C7: adding two records with the same name never fails (`add_record` is
a total function) and leaves the book with exactly the second record under
that name: a subsequent `find` returns the second record, and the
double-add book is the single-add book (last write wins). -/
theorem C7_add_record_overwrite (book : AddressBook) (r1 r2 : Record)
    (h : r1.name = r2.name) :
    ((book.add_record r1).add_record r2).find r2.name = some r2 ∧
    (book.add_record r1).add_record r2 = book.add_record r2 := by
  constructor
  · unfold AddressBook.add_record AddressBook.find
    exact dictGet_set_self _ _ _
  · unfold AddressBook.add_record
    rw [h]
    congr 1
    exact dictSet_set_same _ _ _ _

/-- C7 witness: two concrete records named "Ann". -/
theorem C7_add_record_overwrite_witness :
    ((AddressBook.mk []).add_record ⟨"Ann", [⟨"1111111111"⟩], none⟩
          |>.add_record ⟨"Ann", [⟨"2222222222"⟩], none⟩).find "Ann" =
      some ⟨"Ann", [⟨"2222222222"⟩], none⟩ := by
  exact (C7_add_record_overwrite ⟨[]⟩ ⟨"Ann", [⟨"1111111111"⟩], none⟩
    ⟨"Ann", [⟨"2222222222"⟩], none⟩ rfl).1

/-- C8: `delete(name)` fails with the not-found `ValueError` when `name`
is absent (the book, passed functionally, is untouched on the error path);
when present it removes exactly that entry: `find name` on the result is
`none` and every other name resolves as before. -/
theorem C8_delete (book : AddressBook) (name : String) :
    (book.find name = none →
      book.delete name =
        .error (.valueError "Name not found in address book.")) ∧
    (∀ r, book.find name = some r →
      ∃ book', book.delete name = .ok book' ∧ book'.find name = none ∧
        ∀ other, other ≠ name → book'.find other = book.find other) := by
  constructor
  · intro h
    unfold AddressBook.delete
    unfold AddressBook.find at h
    simp [h]
  · intro r h
    unfold AddressBook.find at h
    refine ⟨⟨dictDel book.data name⟩, ?_, ?_, ?_⟩
    · unfold AddressBook.delete
      simp [h]
    · exact dictGet_del_self _ _
    · intro other hne
      exact dictGet_del_other _ _ _ hne

/-- C8 witness: deleting a present and an absent name in a concrete
book. -/
theorem C8_delete_witness :
    (AddressBook.mk [("Ann", ⟨"Ann", [], none⟩), ("Bob", ⟨"Bob", [], none⟩)]
        |>.delete "Zed") =
      .error (.valueError "Name not found in address book.") ∧
    ∃ book', (AddressBook.mk [("Ann", ⟨"Ann", [], none⟩),
        ("Bob", ⟨"Bob", [], none⟩)] |>.delete "Ann") = .ok book' ∧
      book'.find "Ann" = none ∧
      ∀ other, other ≠ "Ann" →
        book'.find other =
          (AddressBook.mk [("Ann", ⟨"Ann", [], none⟩),
            ("Bob", ⟨"Bob", [], none⟩)]).find other := by
  constructor
  · exact (C8_delete ⟨[("Ann", ⟨"Ann", [], none⟩), ("Bob", ⟨"Bob", [], none⟩)]⟩
      "Zed").1 (by decide)
  · exact (C8_delete ⟨[("Ann", ⟨"Ann", [], none⟩), ("Bob", ⟨"Bob", [], none⟩)]⟩
      "Ann").2 ⟨"Ann", [], none⟩ (by decide)

/-- C9: a Feb 29 birthday of a leap year is accepted at construction, but
for such a birthday `days_to_birthday` and `get_upcoming_birthdays` raise
a `ValueError` (the `replace(year=...)` step fails) whenever the year they
substitute is not a leap year, instead of returning a result: part 1 is
acceptance, part 2 the failure of the this-year substitution, part 3 the
failure of the next-year rollover substitution (reached when today's year
is leap and Feb 29 has passed; the next year is then never leap), part 4
the failure of the report for any book containing such a record. -/
theorem C9_feb29_errors :
    (mkBirthday "29.02.2024" = .ok ⟨"29.02.2024"⟩) ∧
    (∀ (r : Record) b bd (today : Date), r.birthday = some b →
      strptimeDMY b.value = some bd → bd.month = 2 → bd.day = 29 →
      isLeapYear today.year = false →
      r.days_to_birthday today =
        .error (.valueError "day is out of range for month")) ∧
    (∀ (r : Record) b bd (today : Date), today.valid = true →
      r.birthday = some b →
      strptimeDMY b.value = some bd → bd.month = 2 → bd.day = 29 →
      isLeapYear today.year = true →
      Date.lt ⟨today.year, 2, 29⟩ today = true →
      r.days_to_birthday today =
        .error (.valueError "day is out of range for month")) ∧
    (∀ (book : AddressBook) (today : Date) n (r : Record) b bd,
      (n, r) ∈ book.data → r.birthday = some b →
      strptimeDMY b.value = some bd → bd.month = 2 → bd.day = 29 →
      isLeapYear today.year = false →
      ∃ e, book.get_upcoming_birthdays today = .error e) := by
  refine ⟨rfl, ?_, ?_, ?_⟩
  · intro r b bd today hb hparse hm hd hleap
    have hinvalid : Date.valid ⟨today.year, bd.month, bd.day⟩ = false := by
      rw [hm, hd]
      exact feb29_invalid today.year hleap
    simp [Record.days_to_birthday, hb, hparse, Date.replaceYear, hinvalid]
  · intro r b bd today htoday hb hparse hm hd hleap hlt
    have hy1 : 1 ≤ today.year := by
      simp only [Date.valid, Bool.and_eq_true, decide_eq_true_eq] at htoday
      exact htoday.1.1.1.1
    have hvalid : Date.valid ⟨today.year, bd.month, bd.day⟩ = true := by
      rw [hm, hd]
      simp [Date.valid, daysInMonth, hleap]
      omega
    have hinvalid2 : Date.valid ⟨today.year + 1, bd.month, bd.day⟩ =
        false := by
      rw [hm, hd]
      exact feb29_invalid (today.year + 1) (isLeapYear_succ_false _ hleap)
    have hlt' : Date.lt ⟨today.year, bd.month, bd.day⟩ today = true := by
      rw [hm, hd]
      exact hlt
    simp [Record.days_to_birthday, hb, hparse, Date.replaceYear, hvalid,
      hinvalid2, hlt']
  · intro book today n r b bd hmem hb hparse hm hd hleap
    have hinvalid : Date.valid ⟨today.year, bd.month, bd.day⟩ = false := by
      rw [hm, hd]
      exact feb29_invalid today.year hleap
    exact upcomingAux_error_of_mem today (today.addDays 7) book.data n r b
      bd hmem hb hparse hinvalid

/-- C9 witness: the concrete record with birthday 29.02.2024 makes
`days_to_birthday` raise for today = 2025-03-01 (non-leap year
substituted), for today = 2024-03-01 (leap year, birthday passed, next
year substituted), and makes the report raise for today = 2025-01-01. -/
theorem C9_feb29_errors_witness :
    Record.days_to_birthday ⟨"Ann", [], some ⟨"29.02.2024"⟩⟩ ⟨2025, 3, 1⟩ =
      .error (.valueError "day is out of range for month") ∧
    Record.days_to_birthday ⟨"Ann", [], some ⟨"29.02.2024"⟩⟩ ⟨2024, 3, 1⟩ =
      .error (.valueError "day is out of range for month") ∧
    ∃ e, AddressBook.get_upcoming_birthdays
        ⟨[("Ann", ⟨"Ann", [], some ⟨"29.02.2024"⟩⟩)]⟩ ⟨2025, 1, 1⟩ =
      .error e := by
  refine ⟨?_, ?_, ?_⟩
  · exact C9_feb29_errors.2.1 ⟨"Ann", [], some ⟨"29.02.2024"⟩⟩
      ⟨"29.02.2024"⟩ ⟨2024, 2, 29⟩ ⟨2025, 3, 1⟩ rfl rfl rfl rfl rfl
  · exact C9_feb29_errors.2.2.1 ⟨"Ann", [], some ⟨"29.02.2024"⟩⟩
      ⟨"29.02.2024"⟩ ⟨2024, 2, 29⟩ ⟨2024, 3, 1⟩ (by decide) rfl rfl rfl rfl
      rfl (by decide)
  · exact C9_feb29_errors.2.2.2 ⟨[("Ann", ⟨"Ann", [], some ⟨"29.02.2024"⟩⟩)]⟩
      ⟨2025, 1, 1⟩ "Ann" ⟨"Ann", [], some ⟨"29.02.2024"⟩⟩ ⟨"29.02.2024"⟩
      ⟨2024, 2, 29⟩ (by simp) rfl rfl rfl rfl rfl

/-- C2 counterexample: the claim promises a day count for every record
with a birthday, but for the (constructible) birthday 29.02.2024 and
today = 2025-03-01 the year-substitution step raises a `ValueError`, so
`days_to_birthday` signals an error instead of returning any day count. -/
theorem C2_counterexample :
    Record.days_to_birthday ⟨"Ann", [], some ⟨"29.02.2024"⟩⟩ ⟨2025, 3, 1⟩ =
      .error (.valueError "day is out of range for month") := by
  rfl

/-- C2 amended: provided the year substitutions succeed (the birthday's
month/day is a valid date in the substituted year, which only fails for
Feb 29 birthdays in non-leap years, see C9), `days_to_birthday` returns
`none` when no birthday is set, and otherwise the day difference from
`today` to the birthday's occurrence in today's year, or in the next year
when the this-year occurrence is strictly before today; the result is
never negative. -/
theorem C2_days_to_birthday (r : Record) (today : Date)
    (htoday : today.valid = true) :
    (r.birthday = none → r.days_to_birthday today = .ok none) ∧
    (∀ b bd, r.birthday = some b → strptimeDMY b.value = some bd →
      (Date.mk today.year bd.month bd.day).valid = true →
      ((Date.lt (Date.mk today.year bd.month bd.day) today = false →
        ∃ n : Int, r.days_to_birthday today = .ok (some n) ∧
          n = ((Date.mk today.year bd.month bd.day).toOrdinal : Int) -
            (today.toOrdinal : Int) ∧ 0 ≤ n) ∧
       (Date.lt (Date.mk today.year bd.month bd.day) today = true →
        (Date.mk (today.year + 1) bd.month bd.day).valid = true →
        ∃ n : Int, r.days_to_birthday today = .ok (some n) ∧
          n = ((Date.mk (today.year + 1) bd.month bd.day).toOrdinal : Int) -
            (today.toOrdinal : Int) ∧ 0 ≤ n))) := by
  constructor
  · intro h
    simp [Record.days_to_birthday, h]
  · intro b bd hb hparse hvalid
    constructor
    · intro hlt
      have hle : Date.le today ⟨today.year, bd.month, bd.day⟩ = true :=
        (date_not_lt ⟨today.year, bd.month, bd.day⟩ today).mp hlt
      have hord : today.toOrdinal ≤
          (Date.mk today.year bd.month bd.day).toOrdinal :=
        toOrdinal_le_of_le today ⟨today.year, bd.month, bd.day⟩ htoday
          hvalid hle
      refine ⟨_, ?_, rfl, by omega⟩
      simp [Record.days_to_birthday, hb, hparse, Date.replaceYear, hvalid,
        hlt]
    · intro hlt hvalid2
      have hlt2 : Date.lt today ⟨today.year + 1, bd.month, bd.day⟩ =
          true := by
        simp [Date.lt]
      have hord : today.toOrdinal <
          (Date.mk (today.year + 1) bd.month bd.day).toOrdinal :=
        toOrdinal_lt_of_lt today ⟨today.year + 1, bd.month, bd.day⟩ htoday
          hvalid2 hlt2
      refine ⟨_, ?_, rfl, by omega⟩
      simp [Record.days_to_birthday, hb, hparse, Date.replaceYear, hvalid,
        hvalid2, hlt]

/-- C2 witness: birthday 15.06.1990; from 2024-06-10 the occurrence is
still ahead (5 days); from 2024-06-20 it has passed, so next year's
occurrence is used (360 days), non-negative in both cases. -/
theorem C2_days_to_birthday_witness :
    Record.days_to_birthday ⟨"Ann", [], some ⟨"15.06.1990"⟩⟩
        ⟨2024, 6, 10⟩ = .ok (some 5) ∧
    Record.days_to_birthday ⟨"Ann", [], some ⟨"15.06.1990"⟩⟩
        ⟨2024, 6, 20⟩ = .ok (some 360) := by
  constructor
  · obtain ⟨n, hn, hval, hpos⟩ :=
      ((C2_days_to_birthday ⟨"Ann", [], some ⟨"15.06.1990"⟩⟩ ⟨2024, 6, 10⟩
        (by decide)).2 ⟨"15.06.1990"⟩ ⟨1990, 6, 15⟩ rfl (by decide)
        (by decide)).1 (by decide)
    rw [hn, hval]
    simp only [Except.ok.injEq, Option.some.injEq]
    decide
  · obtain ⟨n, hn, hval, hpos⟩ :=
      ((C2_days_to_birthday ⟨"Ann", [], some ⟨"15.06.1990"⟩⟩ ⟨2024, 6, 20⟩
        (by decide)).2 ⟨"15.06.1990"⟩ ⟨1990, 6, 15⟩ rfl (by decide)
        (by decide)).2 (by decide) (by decide)
    rw [hn, hval]
    simp only [Except.ok.injEq, Option.some.injEq]
    decide

/-- The loop of `get_upcoming_birthdays` agrees with the claim's
per-record description when every year substitution succeeds. -/
lemma upcomingAux_eq_spec (today : Date) :
    ∀ l : List (String × Record),
      (∀ n r, (n, r) ∈ l → ∀ b, r.birthday = some b →
        ∃ bd, strptimeDMY b.value = some bd ∧
          (Date.mk today.year bd.month bd.day).valid = true) →
      upcomingAux today (today.addDays 7) l =
        .ok (l.filterMap (upcomingSpec today)) := by
  intro l
  induction l with
  | nil => intro _; rfl
  | cons kv rest ih =>
    intro h
    obtain ⟨k0, r0⟩ := kv
    have hrest : ∀ n r, (n, r) ∈ rest → ∀ b, r.birthday = some b →
        ∃ bd, strptimeDMY b.value = some bd ∧
          (Date.mk today.year bd.month bd.day).valid = true := by
      intro n r hmem b hb
      exact h n r (List.mem_cons_of_mem _ hmem) b hb
    cases hb0 : r0.birthday with
    | none =>
      simp [upcomingAux, upcomingSpec, hb0, ih hrest]
    | some b0 =>
      obtain ⟨bd, hp, hv⟩ := h k0 r0 (List.mem_cons_self _ _) b0 hb0
      have hrep : Date.replaceYear bd today.year =
          .ok ⟨today.year, bd.month, bd.day⟩ := by
        unfold Date.replaceYear
        rw [if_pos hv]
      by_cases hw : (Date.le today ⟨today.year, bd.month, bd.day⟩ &&
          Date.le ⟨today.year, bd.month, bd.day⟩ (today.addDays 7)) = true
      · simp [upcomingAux, upcomingSpec, hb0, hp, hrep, hw, ih hrest]
      · simp only [Bool.not_eq_true] at hw
        simp [upcomingAux, upcomingSpec, hb0, hp, hrep, hw, ih hrest]

/-- C1 counterexample: the claim promises, for every book and date, a
report listing exactly the in-window records; but for a book holding a
(constructible) record with birthday 29.02.2024 and today = 2025-02-25,
the year-substitution step raises a `ValueError` and
`get_upcoming_birthdays` returns no list at all. -/
theorem C1_counterexample :
    AddressBook.get_upcoming_birthdays
        ⟨[("Ann", ⟨"Ann", [], some ⟨"29.02.2024"⟩⟩)]⟩ ⟨2025, 2, 25⟩ =
      .error (.valueError "day is out of range for month") := by
  rfl

/-- C1 amended: for every address book whose records' birthdays have a
valid this-year occurrence (no Feb 29 birthday when today's year is not
leap, see C9), `get_upcoming_birthdays` returns exactly those records
whose unadjusted this-year occurrence (month/day with year = today's
year, never rolled to the next year) satisfies
`today <= occurrence <= today + 7 days` inclusive; each included entry
carries the occurrence shifted +2 days on a Saturday and +1 day on a
Sunday (unshifted otherwise), and entries follow the book's iteration
order — this is `List.filterMap` of the per-record spec `upcomingSpec`
over the book's data in order. -/
theorem C1_get_upcoming_birthdays (book : AddressBook) (today : Date)
    (h : ∀ n r, (n, r) ∈ book.data → ∀ b, r.birthday = some b →
      ∃ bd, strptimeDMY b.value = some bd ∧
        (Date.mk today.year bd.month bd.day).valid = true) :
    book.get_upcoming_birthdays today =
      .ok (book.data.filterMap (upcomingSpec today)) := by
  exact upcomingAux_eq_spec today book.data h

/-- C1 witness: the spec's own example — today = 2024-06-10 (a Monday),
one record with birthday 15.06.1990 (a Saturday occurrence, shifted to
Monday 2024-06-17) and one birthday-less record, which is excluded. -/
theorem C1_get_upcoming_birthdays_witness :
    AddressBook.get_upcoming_birthdays
        ⟨[("Ann", ⟨"Ann", [], some ⟨"15.06.1990"⟩⟩),
          ("Bob", ⟨"Bob", [⟨"1111111111"⟩], none⟩)]⟩ ⟨2024, 6, 10⟩ =
      .ok [("Ann", ⟨2024, 6, 17⟩)] := by
  have h := C1_get_upcoming_birthdays
    ⟨[("Ann", ⟨"Ann", [], some ⟨"15.06.1990"⟩⟩),
      ("Bob", ⟨"Bob", [⟨"1111111111"⟩], none⟩)]⟩ ⟨2024, 6, 10⟩ ?_
  · rw [h]
    rfl
  · intro n r hmem b hb
    simp only [List.mem_cons, List.not_mem_nil, or_false,
      Prod.mk.injEq] at hmem
    rcases hmem with ⟨rfl, rfl⟩ | ⟨rfl, rfl⟩
    · refine ⟨⟨1990, 6, 15⟩, ?_, by decide⟩
      cases hb
      rfl
    · cases hb

/-- C10: when the book already holds a record named `name`, the `add`
handler with a valid phone appends that phone to the existing record
(preserving its name, other phones and birthday — the found record is
mutated, not replaced by a fresh one), leaves every other entry and the
entry count unchanged, and returns the same success message as for a new
contact (the message produced on an empty book). -/
theorem C10_handle_add_existing (book : AddressBook) (name phone : String)
    (r : Record) (hfind : book.find name = some r)
    (hvalid : validate_phone phone = true) :
    ∃ book',
      handle_add [name, phone] book =
        ("Contact \x27" ++ name ++ "\x27 added with phone " ++ phone ++ ".",
          book') ∧
      book'.find name = some { r with phones := r.phones ++ [⟨phone⟩] } ∧
      (∀ other, other ≠ name → book'.find other = book.find other) ∧
      book'.data.length = book.data.length ∧
      (handle_add [name, phone] ⟨[]⟩).1 =
        (handle_add [name, phone] book).1 := by
  have hadd : r.add_phone phone = .ok { r with phones := r.phones ++
      [⟨phone⟩] } := by
    unfold Record.add_phone mkPhone
    rw [if_pos hvalid]
  have hmain : handle_add [name, phone] book =
      ("Contact \x27" ++ name ++ "\x27 added with phone " ++ phone ++ ".",
        ⟨dictSet book.data name { r with phones := r.phones ++
          [⟨phone⟩] }⟩) := by
    unfold handle_add handle_add_body input_error
    simp only [hfind, hadd]
  refine ⟨⟨dictSet book.data name { r with phones := r.phones ++
    [⟨phone⟩] }⟩, hmain, ?_, ?_, ?_, ?_⟩
  · exact dictGet_set_self _ _ _
  · intro other hne
    exact dictGet_set_other _ _ _ _ hne
  · unfold AddressBook.find at hfind
    exact dictSet_length_of_mem book.data name _ r hfind
  · have hnew : (AddressBook.mk []).find name = none := rfl
    have haddnew : (Record.init name).add_phone phone =
        .ok ⟨name, [⟨phone⟩], none⟩ := by
      unfold Record.init Record.add_phone mkPhone
      rw [if_pos hvalid]
      rfl
    unfold handle_add handle_add_body input_error
    simp only [hfind, hadd, hnew, haddnew]

/-- C10 witness: adding a second phone to an existing contact keeps the
first phone and the birthday, and returns the new-contact message. -/
theorem C10_handle_add_existing_witness :
    ∃ book',
      handle_add ["Ann", "2222222222"]
          ⟨[("Ann", ⟨"Ann", [⟨"1111111111"⟩], some ⟨"15.06.1990"⟩⟩)]⟩ =
        ("Contact \x27Ann\x27 added with phone 2222222222.", book') ∧
      book'.find "Ann" =
        some ⟨"Ann", [⟨"1111111111"⟩, ⟨"2222222222"⟩],
          some ⟨"15.06.1990"⟩⟩ ∧
      (∀ other, other ≠ "Ann" →
        book'.find other =
          AddressBook.find
            ⟨[("Ann", ⟨"Ann", [⟨"1111111111"⟩], some ⟨"15.06.1990"⟩⟩)]⟩
            other) ∧
      book'.data.length = 1 ∧
      (handle_add ["Ann", "2222222222"] ⟨[]⟩).1 =
        (handle_add ["Ann", "2222222222"]
          ⟨[("Ann", ⟨"Ann", [⟨"1111111111"⟩], some ⟨"15.06.1990"⟩⟩)]⟩).1 := by
  exact C10_handle_add_existing
    ⟨[("Ann", ⟨"Ann", [⟨"1111111111"⟩], some ⟨"15.06.1990"⟩⟩)]⟩ "Ann"
    "2222222222" ⟨"Ann", [⟨"1111111111"⟩], some ⟨"15.06.1990"⟩⟩ (by rfl)
    (by decide)

/-- C5 counterexample: a lookup failure inside `handle_change` (the old
phone not present on an existing contact) is returned as the bare message
`str(e)` by the inner `except ValueError`, not as an `"Error: "`-prefixed
string: the claim's prefix guarantee fails at this concrete input. -/
theorem C5_counterexample :
    (handle_change ["Ann", "3333333333", "2222222222"]
        ⟨[("Ann", ⟨"Ann", [⟨"1111111111"⟩], none⟩)]⟩).1 =
      "Old phone number not found." ∧
    ¬∃ t, "Old phone number not found." = "Error: " ++ t := by
  constructor
  · rfl
  · rintro ⟨⟨td⟩, ht⟩
    have h1 : "Old phone number not found.".data.head? = some 'O' := rfl
    rw [ht] at h1
    have h2 : (("Error: " ++ String.mk td).data).head? = some 'E' := rfl
    rw [h2] at h1
    simp at h1

/-- C5 amended: every handler returns a single result string and never
raises an uncaught error (the embedding of each handler is a total
function into strings: all three exception kinds a handler body can raise
are caught by `input_error`); every failure is converted into a returned
message that is `"Error: "`-prefixed — except that `handle_change` and
`handle_add_birthday` return the bare underlying message (no prefix) when
the contact exists and the inner edit/set operation fails.  Each conjunct
lists the possible outputs of one handler: an `"Error: "`-prefixed
string, the handler's success message, or one of the bare inner-catch
messages. -/
theorem C5_handler_strings (args : List String) (book : AddressBook)
    (today : Date) :
    ((∃ t, (handle_add args book).1 = "Error: " ++ t) ∨
      (∃ name phone, args = [name, phone] ∧
        (handle_add args book).1 =
          "Contact \x27" ++ name ++ "\x27 added with phone " ++ phone ++
            ".")) ∧
    ((∃ t, (handle_change args book).1 = "Error: " ++ t) ∨
      (∃ name op np, args = [name, op, np] ∧
        (handle_change args book).1 =
          "Phone number for \x27" ++ name ++ "\x27 changed from " ++ op ++
            " to " ++ np ++ ".") ∨
      (handle_change args book).1 = "Old phone number not found." ∨
      (handle_change args book).1 =
        "Phone number must contain exactly 10 digits.") ∧
    ((∃ t, (handle_phone args book).1 = "Error: " ++ t) ∨
      (∃ name r, args = [name] ∧ book.find name = some r ∧
        (handle_phone args book).1 =
          "Phone numbers for " ++ name ++ ": " ++
            String.intercalate ", " (r.phones.map (·.value)))) ∧
    ((handle_all book).1 = book.render) ∧
    ((∃ t, (handle_add_birthday args book).1 = "Error: " ++ t) ∨
      (∃ name bs, args = [name, bs] ∧
        (handle_add_birthday args book).1 =
          "Birthday for \x27" ++ name ++ "\x27 set to " ++ bs ++ ".") ∨
      (handle_add_birthday args book).1 =
        "Birthday must be in DD.MM.YYYY format.") ∧
    ((∃ t, (handle_show_birthday args book).1 = "Error: " ++ t) ∨
      (∃ name r b, args = [name] ∧ book.find name = some r ∧
        r.birthday = some b ∧
        (handle_show_birthday args book).1 =
          "Birthday for " ++ name ++ " is " ++ b.value ++ ".")) ∧
    ((∃ t, (handle_birthdays book today).1 = "Error: " ++ t) ∨
      (handle_birthdays book today).1 = "No birthdays in the next 7 days." ∨
      (∃ entries, book.get_upcoming_birthdays today = .ok entries ∧
        (handle_birthdays book today).1 =
          String.intercalate "\n" (entries.map birthdayLine))) :=
  ⟨handle_add_out args book, handle_change_out args book,
    handle_phone_out args book, handle_all_out book,
    handle_add_birthday_out args book, handle_show_birthday_out args book,
    handle_birthdays_out book today⟩

end Task1
